import Mathlib

/-!
Formal model of the touch-input resampling core (`LegacyResampler`,
`libs/input/Resampler.cpp`).

Times are `std::chrono::nanoseconds` (an `int64` count), embedded as `Int`.
Coordinates and the interpolation coefficient `alpha` are embedded as `Rat`:
the C++ computes `alpha` in milliseconds-as-float and the claims carry a
tolerance of `0.001`, far above `float` rounding error at the concrete
scenario values, so exact rational arithmetic settles them.

The `MotionEvent`, `InputMessage` and `RingBuffer` types are declared in
headers outside the provided sources; the fields and operations the resampler
uses are modelled from the specification (marked `Modelled from the spec:`).
All resampler logic is translated directly from `Resampler.cpp`.
-/

namespace AndroidInput

/-- Time in nanoseconds (`std::chrono::nanoseconds`, signed 64-bit count). -/
abbrev Nanos := Int

/-- `RESAMPLE_LATENCY` = 5 ms, in nanoseconds. -/
def RESAMPLE_LATENCY : Nanos := 5000000

/-- `RESAMPLE_MIN_DELTA` = 2 ms, in nanoseconds. -/
def RESAMPLE_MIN_DELTA : Nanos := 2000000

/-- `RESAMPLE_MAX_DELTA` = 20 ms, in nanoseconds. -/
def RESAMPLE_MAX_DELTA : Nanos := 20000000

/-- `RESAMPLE_MAX_PREDICTION` = 8 ms, in nanoseconds. -/
def RESAMPLE_MAX_PREDICTION : Nanos := 8000000

/-- The motion tool type enumeration (`ToolType`). -/
inductive ToolType
  | unknown
  | finger
  | stylus
  | mouse
  | eraser
  | palm
deriving DecidableEq, Inhabited

/-- `PointerProperties`: stable pointer id plus tool type. -/
structure PointerProperties where
  id : Int
  toolType : ToolType
deriving DecidableEq, Inhabited

/-- `PointerCoords`: axis values (`AXIS_X`, `AXIS_Y`, plus a representative
non-resampled axis, pressure) and the `isResampled` flag. -/
structure PointerCoords where
  x : Rat
  y : Rat
  pressure : Rat
  isResampled : Bool
deriving DecidableEq, Inhabited

/-- `LegacyResampler::Pointer`: properties plus coordinates. -/
structure Pointer where
  properties : PointerProperties
  coords : PointerCoords
deriving DecidableEq, Inhabited

/-- `LegacyResampler::Sample`: event time plus all pointers at that time. -/
structure Sample where
  eventTime : Nanos
  pointers : List Pointer
deriving DecidableEq, Inhabited

/-- `LegacyResampler::Sample::asPointerCoords`. -/
def Sample.asPointerCoords (s : Sample) : List PointerCoords :=
  s.pointers.map Pointer.coords

/-- One stored sample of a `MotionEvent`: event time plus one coordinate
record per pointer (row of the `getSamplePointerCoords` matrix). -/
structure EventSample where
  eventTime : Nanos
  pointerCoords : List PointerCoords
deriving DecidableEq, Inhabited

/-- Modelled from the spec: `MotionEvent` carries a `device_id`, an action and
related metadata, a pointer-property table shared by all samples, and a
nonempty chronologically ordered sequence of samples (latest last);
`getHistorySize` is the sample count minus one. -/
structure MotionEvent where
  id : Int
  deviceId : Int
  action : Int
  actionButton : Int
  buttonState : Int
  flags : Int
  edgeFlags : Int
  classification : Int
  metaState : Int
  source : Int
  xPrecision : Rat
  yPrecision : Rat
  downTime : Nanos
  displayId : Int
  pointerProperties : List PointerProperties
  samples : List EventSample
deriving DecidableEq, Inhabited

/-- `MotionEvent::getPointerCount`. -/
def MotionEvent.pointerCount (ev : MotionEvent) : Nat :=
  ev.pointerProperties.length

/-- Modelled from the spec: `MotionEvent::addSample` appends one new sample
entry with the supplied event time and coordinate vector, preserving the
event's id and every other field. -/
def MotionEvent.addSample (ev : MotionEvent) (eventTime : Nanos)
    (pointerCoords : List PointerCoords) : MotionEvent :=
  { ev with samples := ev.samples ++ [⟨eventTime, pointerCoords⟩] }

/-- Modelled from the spec: `InputMessage` carries a single future sample:
its `eventTime` and, per pointer, properties and coordinates. -/
structure InputMessage where
  eventTime : Nanos
  pointers : List Pointer
deriving DecidableEq, Inhabited

/-- `LegacyResampler`'s mutable state: `mPreviousDeviceId` and the
`mLatestSamples` ring buffer (capacity 2, oldest first). -/
structure ResamplerState where
  previousDeviceId : Option Int
  latestSamples : List Sample
deriving DecidableEq, Inhabited

/-- The initial state: no previous device, empty window. -/
def freshState : ResamplerState := ⟨none, []⟩

/-- Modelled from the spec: `RingBuffer::pushBack` at capacity 2 appends the
sample, evicting the oldest member when the buffer is full. -/
def pushBack (buf : List Sample) (s : Sample) : List Sample :=
  if buf.length < 2 then buf ++ [s] else buf.tail ++ [s]

/-- `canResampleTool`: only finger, mouse, stylus and unknown resample. -/
def canResampleTool (toolType : ToolType) : Bool :=
  decide (toolType = ToolType.finger) || decide (toolType = ToolType.mouse) ||
    decide (toolType = ToolType.stylus) || decide (toolType = ToolType.unknown)

/-- `lerp`: `a + alpha * (b - a)`. -/
def lerp (a b alpha : Rat) : Rat :=
  a + alpha * (b - a)

/-- `calculateResampledCoords`: start from the endpoint selected by `alpha`,
mark it resampled, and overwrite the X and Y axes with the lerped values. -/
def calculateResampledCoords (a b : PointerCoords) (alpha : Rat) :
    PointerCoords :=
  let resampledCoords := if alpha < 1 then a else b
  { resampledCoords with
    isResampled := true
    x := lerp a.x b.x alpha
    y := lerp a.y b.y alpha }

/-- The sample of `motionEvent` at `sampleIndex`: all pointers' properties
paired with the coordinate record at that historical index. -/
def sampleAt (ev : MotionEvent) (sampleIndex : Nat) : Sample :=
  { eventTime := (ev.samples.getD sampleIndex default).eventTime
    pointers := (List.range ev.pointerCount).map fun pointerIndex =>
      { properties := ev.pointerProperties.getD pointerIndex default
        coords :=
          (ev.samples.getD sampleIndex default).pointerCoords.getD pointerIndex
            default } }

/-- `LegacyResampler::updateLatestSamples`: push the trailing
`min(numSamples, 2)` samples of the motion event into the window, in
chronological order. -/
def updateLatestSamples (buf : List Sample) (ev : MotionEvent) : List Sample :=
  let numSamples := ev.samples.length
  let latestIndex := numSamples - 1
  let secondToLatestIndex := if latestIndex > 0 then latestIndex - 1 else 0
  (((List.range numSamples).drop secondToLatestIndex).map (sampleAt ev)).foldl
    pushBack buf

/-- `LegacyResampler::messageToSample`. -/
def messageToSample (message : InputMessage) : Sample :=
  { eventTime := message.eventTime, pointers := message.pointers }

/-- `LegacyResampler::pointerPropertiesResampleable`: the auxiliary sample
must have at least as many pointers as the target, and at every target index
the ids and tool types must agree and the tool type must be resampleable. -/
def pointerPropertiesResampleable (target auxiliary : Sample) : Bool :=
  if target.pointers.length > auxiliary.pointers.length then false
  else
    (List.range target.pointers.length).all fun i =>
      decide ((target.pointers.getD i default).properties.id =
          (auxiliary.pointers.getD i default).properties.id) &&
        decide ((target.pointers.getD i default).properties.toolType =
          (auxiliary.pointers.getD i default).properties.toolType) &&
        canResampleTool (target.pointers.getD i default).properties.toolType

/-- `LegacyResampler::canInterpolate`. The C++ aborts (`LOG FATAL`) on an
empty window; that branch returns `false` here and is unreachable from
`resampleMotionEvent` on a nonempty motion event. -/
def canInterpolate (latestSamples : List Sample) (message : InputMessage) :
    Bool :=
  match latestSamples.getLast? with
  | none => false
  | some pastSample =>
    let futureSample := messageToSample message
    if !pointerPropertiesResampleable pastSample futureSample then false
    else
      let delta : Nanos := futureSample.eventTime - pastSample.eventTime
      if delta < RESAMPLE_MIN_DELTA then false else true

/-- `LegacyResampler::attemptInterpolation`: on success, a sample at
`resampleTime` whose coordinates lerp between the window's latest sample and
the future sample with `alpha = (resampleTime - past) / (future - past)`. -/
def attemptInterpolation (latestSamples : List Sample) (resampleTime : Nanos)
    (futureSample : InputMessage) : Option Sample :=
  if !canInterpolate latestSamples futureSample then none
  else
    match latestSamples.getLast? with
    | none => none
    | some pastSample =>
      let delta : Nanos := futureSample.eventTime - pastSample.eventTime
      let alpha : Rat :=
        ((resampleTime - pastSample.eventTime : Int) : Rat) /
          ((delta : Int) : Rat)
      let resampledPointers : List Pointer :=
        (List.range pastSample.pointers.length).map fun i =>
          { properties := (pastSample.pointers.getD i default).properties
            coords :=
              calculateResampledCoords (pastSample.pointers.getD i default).coords
                ((futureSample.pointers.getD i default).coords) alpha }
      some { eventTime := resampleTime, pointers := resampledPointers }

/-- `LegacyResampler::canExtrapolate`. -/
def canExtrapolate (latestSamples : List Sample) : Bool :=
  if latestSamples.length < 2 then false
  else
    let pastSample := latestSamples.getD (latestSamples.length - 2) default
    let presentSample := latestSamples.getD (latestSamples.length - 1) default
    if !pointerPropertiesResampleable presentSample pastSample then false
    else
      let delta : Nanos := presentSample.eventTime - pastSample.eventTime
      if delta < RESAMPLE_MIN_DELTA then false
      else if delta > RESAMPLE_MAX_DELTA then false
      else true

/-- `LegacyResampler::attemptExtrapolation`: on success, a sample at
`min(resampleTime, farthestPrediction)` on the line through the window's two
samples, where `farthestPrediction = present + min(delta / 2, 8 ms)`. -/
def attemptExtrapolation (latestSamples : List Sample) (resampleTime : Nanos) :
    Option Sample :=
  if !canExtrapolate latestSamples then none
  else
    let pastSample := latestSamples.getD (latestSamples.length - 2) default
    let presentSample := latestSamples.getD (latestSamples.length - 1) default
    let delta : Nanos := presentSample.eventTime - pastSample.eventTime
    let farthestPrediction : Nanos :=
      presentSample.eventTime + min (delta / 2) RESAMPLE_MAX_PREDICTION
    let newResampleTime : Nanos :=
      if resampleTime > farthestPrediction then farthestPrediction
      else resampleTime
    let alpha : Rat :=
      ((newResampleTime - pastSample.eventTime : Int) : Rat) /
        ((delta : Int) : Rat)
    let resampledPointers : List Pointer :=
      (List.range presentSample.pointers.length).map fun i =>
        { properties := (presentSample.pointers.getD i default).properties
          coords :=
            calculateResampledCoords (pastSample.pointers.getD i default).coords
              (presentSample.pointers.getD i default).coords alpha }
    some { eventTime := newResampleTime, pointers := resampledPointers }

/-- `LegacyResampler::addSampleToMotionEvent`: appends the sample's event time
and coordinate vector, preserving the event's id. -/
def addSampleToMotionEvent (sample : Sample) (motionEvent : MotionEvent) :
    MotionEvent :=
  motionEvent.addSample sample.eventTime sample.asPointerCoords

/-- `LegacyResampler::getResampleLatency`. -/
def getResampleLatency : Nanos := RESAMPLE_LATENCY

/-- The window contents after the device-change check and
`updateLatestSamples` ingest at the top of `resampleMotionEvent`. -/
def windowAfterIngest (st : ResamplerState) (ev : MotionEvent) : List Sample :=
  let cleared :=
    match st.previousDeviceId with
    | some prev => if prev ≠ ev.deviceId then [] else st.latestSamples
    | none => st.latestSamples
  updateLatestSamples cleared ev

/-- `LegacyResampler::resampleMotionEvent`: clear the window on device change,
record the device, ingest the event's trailing samples, then attempt
interpolation (future sample present) or extrapolation (absent) at
`frameTime - RESAMPLE_LATENCY`, appending the produced sample if any.
Returns the updated resampler state and motion event. -/
def resampleMotionEvent (st : ResamplerState) (frameTime : Nanos)
    (motionEvent : MotionEvent) (futureSample : Option InputMessage) :
    ResamplerState × MotionEvent :=
  let resampleTime : Nanos := frameTime - RESAMPLE_LATENCY
  let w := windowAfterIngest st motionEvent
  let sample : Option Sample :=
    match futureSample with
    | some msg => attemptInterpolation w resampleTime msg
    | none => attemptExtrapolation w resampleTime
  let motionEvent' :=
    match sample with
    | some s => addSampleToMotionEvent s motionEvent
    | none => motionEvent
  (⟨some motionEvent.deviceId, w⟩, motionEvent')

/-! ### Concrete inputs for the end-to-end scenarios -/

/-- A baseline single-finger motion event: one sample at 10 ms with
`x = 1`, `y = 2`. -/
def baseEvent : MotionEvent :=
  { id := 7, deviceId := 1, action := 2, actionButton := 0, buttonState := 0
    flags := 0, edgeFlags := 0, classification := 0, metaState := 0
    source := 4098, xPrecision := 1, yPrecision := 1, downTime := 0
    displayId := 0, pointerProperties := [⟨0, ToolType.finger⟩]
    samples := [⟨10000000, [⟨1, 2, 0, false⟩]⟩] }

/-- Scenario S1 motion event: one sample at 10 ms, `x = 1`, `y = 2`. -/
def evS1 : MotionEvent := baseEvent

/-- Scenario S1 future sample: 15 ms, `x = 2`, `y = 4`. -/
def msgS1 : InputMessage :=
  ⟨15000000, [⟨⟨0, ToolType.finger⟩, ⟨2, 4, 0, false⟩⟩]⟩

/-- The window sample produced by ingesting `evS1`. -/
def pastS1 : Sample := ⟨10000000, [⟨⟨0, ToolType.finger⟩, ⟨1, 2, 0, false⟩⟩]⟩

/-- The expected S1 interpolation output: 11 ms, `x = 1.2`, `y = 2.4`,
resampled. -/
def sampleS1 : Sample :=
  ⟨11000000, [⟨⟨0, ToolType.finger⟩, ⟨6 / 5, 12 / 5, 0, true⟩⟩]⟩

/-- Scenario S4 motion event: samples at 5 ms (`x = 1`, `y = 2`) and 25 ms
(`x = 2`, `y = 4`). -/
def evS4 : MotionEvent :=
  { baseEvent with
    samples := [⟨5000000, [⟨1, 2, 0, false⟩]⟩, ⟨25000000, [⟨2, 4, 0, false⟩]⟩] }

/-- The older S4 window sample (5 ms). -/
def pastS4 : Sample := ⟨5000000, [⟨⟨0, ToolType.finger⟩, ⟨1, 2, 0, false⟩⟩]⟩

/-- The newer S4 window sample (25 ms). -/
def presentS4 : Sample := ⟨25000000, [⟨⟨0, ToolType.finger⟩, ⟨2, 4, 0, false⟩⟩]⟩

/-- The expected S4 extrapolation output: 33 ms, `x = 2.4`, `y = 4.8`,
resampled. -/
def sampleS4 : Sample :=
  ⟨33000000, [⟨⟨0, ToolType.finger⟩, ⟨12 / 5, 24 / 5, 0, true⟩⟩]⟩

/-- A future sample only 1.5 ms after `pastS1` (delta below the minimum). -/
def msgSmallDelta : InputMessage :=
  ⟨11500000, [⟨⟨0, ToolType.finger⟩, ⟨2, 4, 0, false⟩⟩]⟩

/-- A future sample exactly 2 ms after `pastS1` (delta at the minimum). -/
def msgExactMin : InputMessage :=
  ⟨12000000, [⟨⟨0, ToolType.finger⟩, ⟨2, 4, 0, false⟩⟩]⟩

/-- A motion event whose two samples are 25 ms apart (delta above the
extrapolation maximum). -/
def evLargeDelta : MotionEvent :=
  { baseEvent with
    samples := [⟨0, [⟨1, 2, 0, false⟩]⟩, ⟨25000000, [⟨2, 4, 0, false⟩]⟩] }

/-- A two-pointer motion event (one sample at 10 ms). -/
def evTwoPointers : MotionEvent :=
  { baseEvent with
    pointerProperties := [⟨0, ToolType.finger⟩, ⟨1, ToolType.finger⟩]
    samples := [⟨10000000, [⟨1, 2, 0, false⟩, ⟨3, 4, 0, false⟩]⟩] }

/-- A three-pointer motion event (one sample at 20 ms), same device as
`evTwoPointers`. -/
def evThreePointers : MotionEvent :=
  { baseEvent with
    pointerProperties :=
      [⟨0, ToolType.finger⟩, ⟨1, ToolType.finger⟩, ⟨2, ToolType.finger⟩]
    samples :=
      [⟨20000000, [⟨1, 2, 0, false⟩, ⟨3, 4, 0, false⟩, ⟨5, 6, 0, false⟩]⟩] }

/-- A future sample for `evTwoPointers` whose pointer ids arrive in the
reversed order `[1, 0]`. -/
def msgReorder : InputMessage :=
  ⟨15000000,
    [⟨⟨1, ToolType.finger⟩, ⟨2, 4, 0, false⟩⟩,
      ⟨⟨0, ToolType.finger⟩, ⟨4, 6, 0, false⟩⟩]⟩

/-- A future sample whose event time equals `pastS1`'s (delta 0, stale). -/
def msgStale : InputMessage :=
  ⟨10000000, [⟨⟨0, ToolType.finger⟩, ⟨2, 4, 0, false⟩⟩]⟩

/-- A single-palm-pointer motion event (one sample at 10 ms). -/
def evPalm : MotionEvent :=
  { baseEvent with pointerProperties := [⟨0, ToolType.palm⟩] }

/-- A palm future sample matching `evPalm`'s pointer. -/
def msgPalm : InputMessage :=
  ⟨15000000, [⟨⟨0, ToolType.palm⟩, ⟨2, 4, 0, false⟩⟩]⟩

/-! ### Helper lemmas -/

lemma calculateResampledCoords_x (a b : PointerCoords) (alpha : Rat) :
    (calculateResampledCoords a b alpha).x = a.x + alpha * (b.x - a.x) := rfl

lemma calculateResampledCoords_y (a b : PointerCoords) (alpha : Rat) :
    (calculateResampledCoords a b alpha).y = a.y + alpha * (b.y - a.y) := rfl

lemma calculateResampledCoords_isResampled (a b : PointerCoords) (alpha : Rat) :
    (calculateResampledCoords a b alpha).isResampled = true := rfl

lemma messageToSample_eventTime (msg : InputMessage) :
    (messageToSample msg).eventTime = msg.eventTime := rfl

lemma messageToSample_pointers (msg : InputMessage) :
    (messageToSample msg).pointers = msg.pointers := rfl

lemma addSampleToMotionEvent_samples (s : Sample) (ev : MotionEvent) :
    (addSampleToMotionEvent s ev).samples
      = ev.samples ++ [⟨s.eventTime, s.asPointerCoords⟩] := rfl

lemma getD_concat_length {α : Type} (l : List α) (x d : α) :
    (l ++ [x]).getD l.length d = x := by
  induction l with
  | nil => rfl
  | cons a l ih =>
    simp only [List.cons_append, List.length_cons, List.getD_cons_succ]
    exact ih

lemma getD_map_range {α : Type} (f : Nat → α) (n i : Nat) (h : i < n) (d : α) :
    ((List.range n).map f).getD i d = f i := by
  rw [List.getD_eq_getElem?_getD, List.getElem?_map, List.getElem?_range h]
  rfl

lemma mem_pushBack (buf : List Sample) (s x : Sample) (hx : x ∈ pushBack buf s) :
    x ∈ buf ∨ x = s := by
  unfold pushBack at hx
  split at hx
  · rcases List.mem_append.mp hx with h | h
    · exact Or.inl h
    · exact Or.inr (List.mem_singleton.mp h)
  · rcases List.mem_append.mp hx with h | h
    · exact Or.inl (List.mem_of_mem_tail h)
    · exact Or.inr (List.mem_singleton.mp h)

lemma mem_foldl_pushBack (l : List Sample) (buf : List Sample) (x : Sample)
    (hx : x ∈ l.foldl pushBack buf) : x ∈ buf ∨ x ∈ l := by
  induction l generalizing buf with
  | nil => exact Or.inl hx
  | cons a l ih =>
    rw [List.foldl_cons] at hx
    rcases ih (pushBack buf a) hx with h | h
    · rcases mem_pushBack buf a x h with h' | h'
      · exact Or.inl h'
      · exact Or.inr (by simp [h'])
    · exact Or.inr (List.mem_cons_of_mem a h)

lemma sampleAt_pointers_length (ev : MotionEvent) (i : Nat) :
    (sampleAt ev i).pointers.length = ev.pointerCount := by
  simp [sampleAt]

lemma mem_updateLatestSamples (buf : List Sample) (ev : MotionEvent)
    (x : Sample) (hx : x ∈ updateLatestSamples buf ev) :
    x ∈ buf ∨ x.pointers.length = ev.pointerCount := by
  unfold updateLatestSamples at hx
  rcases mem_foldl_pushBack _ _ _ hx with h | h
  · exact Or.inl h
  · right
    obtain ⟨i, _, rfl⟩ := List.mem_map.mp h
    exact sampleAt_pointers_length ev i

lemma pointerPropertiesResampleable_true_elim (target auxiliary : Sample)
    (h : pointerPropertiesResampleable target auxiliary = true) :
    target.pointers.length ≤ auxiliary.pointers.length
      ∧ ∀ i < target.pointers.length,
        (target.pointers.getD i default).properties.id
            = (auxiliary.pointers.getD i default).properties.id
          ∧ (target.pointers.getD i default).properties.toolType
            = (auxiliary.pointers.getD i default).properties.toolType
          ∧ canResampleTool
              (target.pointers.getD i default).properties.toolType = true := by
  unfold pointerPropertiesResampleable at h
  by_cases hlen : target.pointers.length > auxiliary.pointers.length
  · rw [if_pos hlen] at h
    exact absurd h (by simp)
  · rw [if_neg hlen] at h
    refine ⟨Nat.le_of_not_lt hlen, ?_⟩
    intro i hi
    have hall := List.all_eq_true.mp h i (List.mem_range.mpr hi)
    simp only [Bool.and_eq_true, decide_eq_true_eq] at hall
    exact ⟨hall.1.1, hall.1.2, hall.2⟩

lemma canInterpolate_true_getLast (w : List Sample) (msg : InputMessage)
    (h : canInterpolate w msg = true) : ∃ past, w.getLast? = some past := by
  unfold canInterpolate at h
  cases hl : w.getLast? with
  | none => rw [hl] at h; exact absurd h (by simp)
  | some past => exact ⟨past, rfl⟩

lemma canInterpolate_true_elim (w : List Sample) (msg : InputMessage)
    (past : Sample) (hpast : w.getLast? = some past)
    (h : canInterpolate w msg = true) :
    pointerPropertiesResampleable past (messageToSample msg) = true
      ∧ RESAMPLE_MIN_DELTA ≤ msg.eventTime - past.eventTime := by
  simp only [canInterpolate, hpast, messageToSample_eventTime] at h
  cases hp : pointerPropertiesResampleable past (messageToSample msg) with
  | false => rw [hp] at h; simp at h
  | true =>
    rw [hp] at h
    refine ⟨rfl, ?_⟩
    by_cases hd : msg.eventTime - past.eventTime < RESAMPLE_MIN_DELTA
    · rw [if_pos hd] at h
      simp at h
    · exact Int.not_lt.mp hd

lemma canInterpolate_true_intro (w : List Sample) (msg : InputMessage)
    (past : Sample) (hpast : w.getLast? = some past)
    (hppr : pointerPropertiesResampleable past (messageToSample msg) = true)
    (hdelta : RESAMPLE_MIN_DELTA ≤ msg.eventTime - past.eventTime) :
    canInterpolate w msg = true := by
  have hnot : ¬(msg.eventTime - past.eventTime < RESAMPLE_MIN_DELTA) :=
    Int.not_lt.mpr hdelta
  simp only [canInterpolate, hpast, messageToSample_eventTime]
  simp [hppr, hnot]

lemma canInterpolate_false_of_delta_lt (w : List Sample) (msg : InputMessage)
    (past : Sample) (hpast : w.getLast? = some past)
    (hdelta : msg.eventTime - past.eventTime < RESAMPLE_MIN_DELTA) :
    canInterpolate w msg = false := by
  simp only [canInterpolate, hpast, messageToSample_eventTime]
  cases hp : pointerPropertiesResampleable past (messageToSample msg) with
  | false => simp [hp]
  | true => simp [hp, hdelta]

lemma canExtrapolate_true_elim (w : List Sample) (h : canExtrapolate w = true) :
    2 ≤ w.length
      ∧ pointerPropertiesResampleable (w.getD (w.length - 1) default)
          (w.getD (w.length - 2) default) = true
      ∧ RESAMPLE_MIN_DELTA ≤ (w.getD (w.length - 1) default).eventTime
          - (w.getD (w.length - 2) default).eventTime
      ∧ (w.getD (w.length - 1) default).eventTime
          - (w.getD (w.length - 2) default).eventTime ≤ RESAMPLE_MAX_DELTA := by
  simp only [canExtrapolate] at h
  by_cases hlen : w.length < 2
  · rw [if_pos hlen] at h; simp at h
  · rw [if_neg hlen] at h
    refine ⟨Nat.le_of_not_lt hlen, ?_⟩
    cases hp : pointerPropertiesResampleable (w.getD (w.length - 1) default)
        (w.getD (w.length - 2) default) with
    | false => rw [hp] at h; simp at h
    | true =>
      rw [hp] at h
      refine ⟨rfl, ?_⟩
      by_cases hd1 : (w.getD (w.length - 1) default).eventTime
          - (w.getD (w.length - 2) default).eventTime < RESAMPLE_MIN_DELTA
      · rw [if_pos hd1] at h; simp at h
      · rw [if_neg hd1] at h
        by_cases hd2 : RESAMPLE_MAX_DELTA
            < (w.getD (w.length - 1) default).eventTime
              - (w.getD (w.length - 2) default).eventTime
        · rw [if_pos hd2] at h; simp at h
        · exact ⟨Int.not_lt.mp hd1, Int.not_lt.mp hd2⟩

lemma canExtrapolate_true_intro (w : List Sample) (hlen : 2 ≤ w.length)
    (hppr : pointerPropertiesResampleable (w.getD (w.length - 1) default)
        (w.getD (w.length - 2) default) = true)
    (hd1 : RESAMPLE_MIN_DELTA ≤ (w.getD (w.length - 1) default).eventTime
        - (w.getD (w.length - 2) default).eventTime)
    (hd2 : (w.getD (w.length - 1) default).eventTime
        - (w.getD (w.length - 2) default).eventTime ≤ RESAMPLE_MAX_DELTA) :
    canExtrapolate w = true := by
  simp only [canExtrapolate]
  rw [if_neg (Nat.not_lt.mpr hlen), hppr]
  rw [if_neg (Int.not_lt.mpr hd1), if_neg (Int.not_lt.mpr hd2)]
  simp

lemma canExtrapolate_false_of_delta (w : List Sample)
    (hdelta : (w.getD (w.length - 1) default).eventTime
          - (w.getD (w.length - 2) default).eventTime < RESAMPLE_MIN_DELTA
        ∨ RESAMPLE_MAX_DELTA < (w.getD (w.length - 1) default).eventTime
          - (w.getD (w.length - 2) default).eventTime) :
    canExtrapolate w = false := by
  simp only [canExtrapolate]
  by_cases hlen : w.length < 2
  · rw [if_pos hlen]
  · rw [if_neg hlen]
    cases hp : pointerPropertiesResampleable (w.getD (w.length - 1) default)
        (w.getD (w.length - 2) default) with
    | false => simp
    | true =>
      simp only [Bool.not_true, Bool.false_eq_true, if_false]
      rcases hdelta with hd | hd
      · rw [if_pos hd]
      · have hMM : RESAMPLE_MIN_DELTA ≤ RESAMPLE_MAX_DELTA := by decide
        rw [if_neg (Int.not_lt.mpr (le_trans hMM (le_of_lt hd)))]
        rw [if_pos hd]

lemma attemptInterpolation_eq_none (w : List Sample) (t : Nanos)
    (msg : InputMessage) (h : canInterpolate w msg = false) :
    attemptInterpolation w t msg = none := by
  unfold attemptInterpolation
  simp [h]

lemma attemptInterpolation_spec (w : List Sample) (t : Nanos)
    (msg : InputMessage) (past s : Sample) (hpast : w.getLast? = some past)
    (hs : attemptInterpolation w t msg = some s) :
    canInterpolate w msg = true
      ∧ s.eventTime = t
      ∧ s.pointers = (List.range past.pointers.length).map fun i =>
          { properties := (past.pointers.getD i default).properties
            coords :=
              calculateResampledCoords (past.pointers.getD i default).coords
                ((msg.pointers.getD i default).coords)
                (((t - past.eventTime : Int) : Rat) /
                  ((msg.eventTime - past.eventTime : Int) : Rat)) } := by
  unfold attemptInterpolation at hs
  cases hc : canInterpolate w msg with
  | false => rw [hc] at hs; simp at hs
  | true =>
    rw [hc] at hs
    simp only [Bool.not_true, Bool.false_eq_true, if_false, hpast,
      Option.some.injEq] at hs
    subst hs
    exact ⟨rfl, rfl, rfl⟩

lemma attemptExtrapolation_eq_none (w : List Sample) (t : Nanos)
    (h : canExtrapolate w = false) : attemptExtrapolation w t = none := by
  unfold attemptExtrapolation
  simp [h]

lemma attemptExtrapolation_spec (w : List Sample) (t : Nanos) (s : Sample)
    (hs : attemptExtrapolation w t = some s) :
    canExtrapolate w = true
      ∧ s.eventTime =
          (if t > (w.getD (w.length - 1) default).eventTime
                + min (((w.getD (w.length - 1) default).eventTime
                  - (w.getD (w.length - 2) default).eventTime) / 2)
                  RESAMPLE_MAX_PREDICTION
            then (w.getD (w.length - 1) default).eventTime
                + min (((w.getD (w.length - 1) default).eventTime
                  - (w.getD (w.length - 2) default).eventTime) / 2)
                  RESAMPLE_MAX_PREDICTION
            else t)
      ∧ s.pointers =
          (List.range (w.getD (w.length - 1) default).pointers.length).map
            fun i =>
              { properties :=
                  ((w.getD (w.length - 1) default).pointers.getD i
                    default).properties
                coords :=
                  calculateResampledCoords
                    ((w.getD (w.length - 2) default).pointers.getD i
                      default).coords
                    ((w.getD (w.length - 1) default).pointers.getD i
                      default).coords
                    (((s.eventTime - (w.getD (w.length - 2) default).eventTime :
                        Int) : Rat) /
                      (((w.getD (w.length - 1) default).eventTime
                        - (w.getD (w.length - 2) default).eventTime : Int) :
                        Rat)) } := by
  unfold attemptExtrapolation at hs
  cases hc : canExtrapolate w with
  | false => rw [hc] at hs; simp at hs
  | true =>
    rw [hc] at hs
    simp only [Bool.not_true, Bool.false_eq_true, if_false,
      Option.some.injEq] at hs
    subst hs
    exact ⟨rfl, rfl, rfl⟩

lemma attemptInterpolation_isSome (w : List Sample) (t : Nanos)
    (msg : InputMessage) :
    (attemptInterpolation w t msg).isSome = canInterpolate w msg := by
  cases hc : canInterpolate w msg with
  | false => rw [attemptInterpolation_eq_none w t msg hc]; rfl
  | true =>
    obtain ⟨past, hpast⟩ := canInterpolate_true_getLast w msg hc
    unfold attemptInterpolation
    rw [hc, hpast]
    simp

lemma attemptExtrapolation_isSome (w : List Sample) (t : Nanos) :
    (attemptExtrapolation w t).isSome = canExtrapolate w := by
  cases hc : canExtrapolate w with
  | false => rw [attemptExtrapolation_eq_none w t hc]; rfl
  | true =>
    unfold attemptExtrapolation
    rw [hc]
    simp

lemma resample_fst (st : ResamplerState) (f : Nanos) (ev : MotionEvent)
    (fut : Option InputMessage) :
    (resampleMotionEvent st f ev fut).1
      = ⟨some ev.deviceId, windowAfterIngest st ev⟩ := rfl

lemma resample_snd_interp_some (st : ResamplerState) (f : Nanos)
    (ev : MotionEvent) (msg : InputMessage) (s : Sample)
    (h : attemptInterpolation (windowAfterIngest st ev) (f - RESAMPLE_LATENCY)
      msg = some s) :
    (resampleMotionEvent st f ev (some msg)).2 = addSampleToMotionEvent s ev := by
  simp [resampleMotionEvent, h]

lemma resample_snd_interp_none (st : ResamplerState) (f : Nanos)
    (ev : MotionEvent) (msg : InputMessage)
    (h : attemptInterpolation (windowAfterIngest st ev) (f - RESAMPLE_LATENCY)
      msg = none) :
    (resampleMotionEvent st f ev (some msg)).2 = ev := by
  simp [resampleMotionEvent, h]

lemma resample_snd_extrap_some (st : ResamplerState) (f : Nanos)
    (ev : MotionEvent) (s : Sample)
    (h : attemptExtrapolation (windowAfterIngest st ev) (f - RESAMPLE_LATENCY)
      = some s) :
    (resampleMotionEvent st f ev none).2 = addSampleToMotionEvent s ev := by
  simp [resampleMotionEvent, h]

lemma resample_snd_extrap_none (st : ResamplerState) (f : Nanos)
    (ev : MotionEvent)
    (h : attemptExtrapolation (windowAfterIngest st ev) (f - RESAMPLE_LATENCY)
      = none) :
    (resampleMotionEvent st f ev none).2 = ev := by
  simp [resampleMotionEvent, h]

lemma resample_snd_cases (st : ResamplerState) (f : Nanos) (ev : MotionEvent)
    (fut : Option InputMessage) :
    (resampleMotionEvent st f ev fut).2 = ev
      ∨ ∃ s : Sample,
          (resampleMotionEvent st f ev fut).2 = addSampleToMotionEvent s ev := by
  cases fut with
  | none =>
    cases h : attemptExtrapolation (windowAfterIngest st ev)
        (f - RESAMPLE_LATENCY) with
    | none => exact Or.inl (resample_snd_extrap_none st f ev h)
    | some s => exact Or.inr ⟨s, resample_snd_extrap_some st f ev s h⟩
  | some msg =>
    cases h : attemptInterpolation (windowAfterIngest st ev)
        (f - RESAMPLE_LATENCY) msg with
    | none => exact Or.inl (resample_snd_interp_none st f ev msg h)
    | some s => exact Or.inr ⟨s, resample_snd_interp_some st f ev msg s h⟩

lemma resample_length_interp (st : ResamplerState) (f : Nanos)
    (ev : MotionEvent) (msg : InputMessage) :
    (resampleMotionEvent st f ev (some msg)).2.samples.length
      = if canInterpolate (windowAfterIngest st ev) msg
        then ev.samples.length + 1 else ev.samples.length := by
  cases hc : canInterpolate (windowAfterIngest st ev) msg with
  | false =>
    rw [resample_snd_interp_none st f ev msg
      (attemptInterpolation_eq_none _ _ _ hc)]
    simp
  | true =>
    have hsome := attemptInterpolation_isSome (windowAfterIngest st ev)
      (f - RESAMPLE_LATENCY) msg
    rw [hc] at hsome
    obtain ⟨s, hs⟩ := Option.isSome_iff_exists.mp hsome
    rw [resample_snd_interp_some st f ev msg s hs,
      addSampleToMotionEvent_samples]
    simp

lemma resample_length_extrap (st : ResamplerState) (f : Nanos)
    (ev : MotionEvent) :
    (resampleMotionEvent st f ev none).2.samples.length
      = if canExtrapolate (windowAfterIngest st ev)
        then ev.samples.length + 1 else ev.samples.length := by
  cases hc : canExtrapolate (windowAfterIngest st ev) with
  | false =>
    rw [resample_snd_extrap_none st f ev
      (attemptExtrapolation_eq_none _ _ hc)]
    simp
  | true =>
    have hsome := attemptExtrapolation_isSome (windowAfterIngest st ev)
      (f - RESAMPLE_LATENCY)
    rw [hc] at hsome
    obtain ⟨s, hs⟩ := Option.isSome_iff_exists.mp hsome
    rw [resample_snd_extrap_some st f ev s hs, addSampleToMotionEvent_samples]
    simp

lemma attemptInterpolation_pointers_resampled (w : List Sample) (t : Nanos)
    (msg : InputMessage) (s : Sample)
    (hs : attemptInterpolation w t msg = some s) :
    ∀ p ∈ s.pointers, p.coords.isResampled = true := by
  have hc : canInterpolate w msg = true := by
    have h := attemptInterpolation_isSome w t msg
    rw [hs] at h
    exact h.symm
  obtain ⟨past, hpast⟩ := canInterpolate_true_getLast w msg hc
  obtain ⟨-, -, hpointers⟩ := attemptInterpolation_spec w t msg past s hpast hs
  intro p hp
  rw [hpointers] at hp
  obtain ⟨i, -, rfl⟩ := List.mem_map.mp hp
  exact calculateResampledCoords_isResampled _ _ _

lemma attemptExtrapolation_pointers_resampled (w : List Sample) (t : Nanos)
    (s : Sample) (hs : attemptExtrapolation w t = some s) :
    ∀ p ∈ s.pointers, p.coords.isResampled = true := by
  obtain ⟨-, -, hpointers⟩ := attemptExtrapolation_spec w t s hs
  intro p hp
  rw [hpointers] at hp
  obtain ⟨i, -, rfl⟩ := List.mem_map.mp hp
  exact calculateResampledCoords_isResampled _ _ _

lemma attemptInterpolation_eventTime (w : List Sample) (t : Nanos)
    (msg : InputMessage) (s : Sample)
    (hs : attemptInterpolation w t msg = some s) : s.eventTime = t := by
  have hc : canInterpolate w msg = true := by
    have h := attemptInterpolation_isSome w t msg
    rw [hs] at h
    exact h.symm
  obtain ⟨past, hpast⟩ := canInterpolate_true_getLast w msg hc
  exact (attemptInterpolation_spec w t msg past s hpast hs).2.1

lemma attemptExtrapolation_eventTime_le (w : List Sample) (t : Nanos)
    (s : Sample) (hs : attemptExtrapolation w t = some s) : s.eventTime ≤ t := by
  obtain ⟨-, htime, -⟩ := attemptExtrapolation_spec w t s hs
  rw [htime]
  split
  · rename_i h
    exact le_of_lt h
  · exact le_refl t

/-! ### Claim theorems -/

/-- C1: when resampling succeeds on the interpolation path, the appended
sample's event time equals the target time (`frameTime - RESAMPLE_LATENCY`)
and each pointer's x and y equal `past + alpha * (future - past)` with
`alpha = (target - past.eventTime) / (future.eventTime - past.eventTime)`. -/
theorem C1_interpolation_postcondition (st : ResamplerState)
    (frameTime targetTime : Nanos) (ev : MotionEvent) (msg : InputMessage)
    (past s : Sample)
    (htarget : targetTime = frameTime - RESAMPLE_LATENCY)
    (hpast : (windowAfterIngest st ev).getLast? = some past)
    (hs : attemptInterpolation (windowAfterIngest st ev) targetTime msg
      = some s) :
    (resampleMotionEvent st frameTime ev (some msg)).2.samples
        = ev.samples ++ [⟨targetTime, s.asPointerCoords⟩]
      ∧ s.eventTime = targetTime
      ∧ s.pointers.length = past.pointers.length
      ∧ ∀ i < past.pointers.length,
          (s.pointers.getD i default).coords.x
              = (past.pointers.getD i default).coords.x
                + ((targetTime - past.eventTime : Int) : Rat)
                    / ((msg.eventTime - past.eventTime : Int) : Rat)
                  * ((msg.pointers.getD i default).coords.x
                    - (past.pointers.getD i default).coords.x)
            ∧ (s.pointers.getD i default).coords.y
              = (past.pointers.getD i default).coords.y
                + ((targetTime - past.eventTime : Int) : Rat)
                    / ((msg.eventTime - past.eventTime : Int) : Rat)
                  * ((msg.pointers.getD i default).coords.y
                    - (past.pointers.getD i default).coords.y) := by
  obtain ⟨hcan, hst, hpointers⟩ := attemptInterpolation_spec _ _ _ _ _ hpast hs
  subst htarget
  refine ⟨?_, hst, ?_, ?_⟩
  · rw [resample_snd_interp_some st frameTime ev msg s hs,
      addSampleToMotionEvent_samples, hst]
  · rw [hpointers]
    simp
  · intro i hi
    rw [hpointers, getD_map_range _ _ _ hi]
    exact ⟨rfl, rfl⟩

/-- C1 witness: scenario S1 — past sample (10 ms, x=1, y=2), future sample
(15 ms, x=2, y=4), target 11 ms (frame time 16 ms); the appended sample is
(11 ms, x=1.2, y=2.4). -/
theorem C1_interpolation_postcondition_witness :
    ((11000000 : Int) = 16000000 - RESAMPLE_LATENCY)
      ∧ (windowAfterIngest freshState evS1).getLast? = some pastS1
      ∧ attemptInterpolation (windowAfterIngest freshState evS1) 11000000 msgS1
          = some sampleS1
      ∧ (resampleMotionEvent freshState 16000000 evS1 (some msgS1)).2.samples
          = evS1.samples ++ [⟨11000000, sampleS1.asPointerCoords⟩] := by
  have h1 : (11000000 : Int) = 16000000 - RESAMPLE_LATENCY := by decide
  have h2 : (windowAfterIngest freshState evS1).getLast? = some pastS1 := by
    decide
  have h3 : attemptInterpolation (windowAfterIngest freshState evS1) 11000000
      msgS1 = some sampleS1 := by
    simp [attemptInterpolation, canInterpolate, windowAfterIngest,
      updateLatestSamples, sampleAt, pushBack, pointerPropertiesResampleable,
      canResampleTool, messageToSample, calculateResampledCoords, lerp,
      freshState, evS1, baseEvent, msgS1, pastS1, sampleS1, RESAMPLE_MIN_DELTA,
      MotionEvent.pointerCount, List.range_succ]
    norm_num
  exact ⟨h1, h2, h3, (C1_interpolation_postcondition freshState 16000000
    11000000 evS1 msgS1 pastS1 sampleS1 h1 h2 h3).1⟩

/-- C2 counterexample: the resample target 9 ms (frame time 14 ms) is not
strictly greater than the latest sample time 10 ms, yet the call still
interpolates and appends a sample: the code never compares the target time
with the latest event time. -/
theorem C2_counterexample :
    (14000000 - RESAMPLE_LATENCY : Int) ≤ pastS1.eventTime
      ∧ (windowAfterIngest freshState evS1).getLast? = some pastS1
      ∧ (resampleMotionEvent freshState 14000000 evS1
          (some msgS1)).2.samples.length = evS1.samples.length + 1 := by
  refine ⟨by decide, by decide, by decide⟩

/-- C2 amended: the resampler never gates on the target time — whether a
sample is appended, and the resulting window state, are independent of the
frame time argument; the strictly-greater requirement is an unchecked caller
precondition, and a target at or before the latest event time can still
modify the event. -/
theorem C2_amended_target_time_not_gated (st : ResamplerState) (f₁ f₂ : Nanos)
    (ev : MotionEvent) (fut : Option InputMessage) :
    (resampleMotionEvent st f₁ ev fut).1 = (resampleMotionEvent st f₂ ev fut).1
      ∧ (resampleMotionEvent st f₁ ev fut).2.samples.length
        = (resampleMotionEvent st f₂ ev fut).2.samples.length := by
  refine ⟨rfl, ?_⟩
  cases fut with
  | some msg => rw [resample_length_interp, resample_length_interp]
  | none => rw [resample_length_extrap, resample_length_extrap]

/-- C3 counterexample: a two-pointer event followed by a three-pointer event
on the same device leaves the window holding one sample with two pointers and
one with three, so the window samples do not all share the same pointer
count. -/
theorem C3_counterexample :
    ((resampleMotionEvent (resampleMotionEvent freshState 0 evTwoPointers
          none).1 0 evThreePointers none).1.latestSamples.map
        fun s => s.pointers.length) = [2, 3]
      ∧ ¬ (∀ s₁ ∈ (resampleMotionEvent (resampleMotionEvent freshState 0
            evTwoPointers none).1 0 evThreePointers none).1.latestSamples,
          ∀ s₂ ∈ (resampleMotionEvent (resampleMotionEvent freshState 0
            evTwoPointers none).1 0 evThreePointers none).1.latestSamples,
          s₁.pointers.length = s₂.pointers.length) := by
  refine ⟨by decide, by decide⟩

/-- C3 amended: every sample ingested into the window carries the ingesting
event's pointer count, so after any single resample call starting from an
empty window all stored samples share that event's pointer count; across
calls whose events have different pointer counts the two-slot window can hold
samples with different pointer counts. -/
theorem C3_amended_window_uniform_from_empty (st : ResamplerState) (f : Nanos)
    (ev : MotionEvent) (fut : Option InputMessage)
    (hempty : st.latestSamples = []) :
    ∀ s ∈ (resampleMotionEvent st f ev fut).1.latestSamples,
      s.pointers.length = ev.pointerCount := by
  intro s hs
  rw [resample_fst] at hs
  have hcleared : windowAfterIngest st ev = updateLatestSamples [] ev := by
    unfold windowAfterIngest
    cases st.previousDeviceId <;> simp [hempty]
  rw [hcleared] at hs
  rcases mem_updateLatestSamples [] ev s hs with h | h
  · simp at h
  · exact h

/-- C3 amended witness: one call on a fresh resampler with the two-pointer
event leaves only two-pointer samples in the window. -/
theorem C3_amended_window_uniform_from_empty_witness :
    freshState.latestSamples = []
      ∧ ∀ s ∈ (resampleMotionEvent freshState 0 evTwoPointers
          none).1.latestSamples, s.pointers.length = evTwoPointers.pointerCount :=
  ⟨rfl, C3_amended_window_uniform_from_empty freshState 0 evTwoPointers none
    rfl⟩

/-- C4: when extrapolation succeeds, the appended sample's event time equals
`min(target, present + min(delta / 2, 8 ms))` and each pointer's x and y lie
on the line through the two window samples evaluated at that time. -/
theorem C4_extrapolation_horizon (st : ResamplerState) (frameTime : Nanos)
    (ev : MotionEvent) (past present s : Sample)
    (hpast : (windowAfterIngest st ev).getD
      ((windowAfterIngest st ev).length - 2) default = past)
    (hpresent : (windowAfterIngest st ev).getD
      ((windowAfterIngest st ev).length - 1) default = present)
    (hs : attemptExtrapolation (windowAfterIngest st ev)
      (frameTime - RESAMPLE_LATENCY) = some s) :
    (resampleMotionEvent st frameTime ev none).2.samples
        = ev.samples ++ [⟨s.eventTime, s.asPointerCoords⟩]
      ∧ s.eventTime = min (frameTime - RESAMPLE_LATENCY)
          (present.eventTime
            + min ((present.eventTime - past.eventTime) / 2)
              RESAMPLE_MAX_PREDICTION)
      ∧ s.pointers.length = present.pointers.length
      ∧ ∀ i < present.pointers.length,
          (s.pointers.getD i default).coords.x
              = (past.pointers.getD i default).coords.x
                + ((s.eventTime - past.eventTime : Int) : Rat)
                    / ((present.eventTime - past.eventTime : Int) : Rat)
                  * ((present.pointers.getD i default).coords.x
                    - (past.pointers.getD i default).coords.x)
            ∧ (s.pointers.getD i default).coords.y
              = (past.pointers.getD i default).coords.y
                + ((s.eventTime - past.eventTime : Int) : Rat)
                    / ((present.eventTime - past.eventTime : Int) : Rat)
                  * ((present.pointers.getD i default).coords.y
                    - (past.pointers.getD i default).coords.y) := by
  obtain ⟨hcan, htime, hpointers⟩ := attemptExtrapolation_spec _ _ _ hs
  rw [hpast, hpresent] at htime hpointers
  refine ⟨?_, ?_, ?_, ?_⟩
  · rw [resample_snd_extrap_some st frameTime ev s hs,
      addSampleToMotionEvent_samples]
  · rw [htime]
    rcases lt_trichotomy (frameTime - RESAMPLE_LATENCY)
        (present.eventTime + min ((present.eventTime - past.eventTime) / 2)
          RESAMPLE_MAX_PREDICTION) with hlt | heq | hgt
    · rw [if_neg (not_lt_of_gt hlt), min_eq_left (le_of_lt hlt)]
    · rw [heq]
      simp
    · rw [if_pos hgt, min_eq_right (le_of_lt hgt)]
  · rw [hpointers]
    simp
  · intro i hi
    rw [hpointers, getD_map_range _ _ _ hi]
    exact ⟨rfl, rfl⟩

/-- C4 witness: scenario S4 — window samples (5 ms, x=1, y=2) and (25 ms,
x=2, y=4), target 43 ms (frame time 48 ms); delta = 20 ms, horizon
33 ms, so the appended sample is (33 ms, x=2.4, y=4.8). -/
theorem C4_extrapolation_horizon_witness :
    (windowAfterIngest freshState evS4).getD
        ((windowAfterIngest freshState evS4).length - 2) default = pastS4
      ∧ (windowAfterIngest freshState evS4).getD
        ((windowAfterIngest freshState evS4).length - 1) default = presentS4
      ∧ attemptExtrapolation (windowAfterIngest freshState evS4)
          (48000000 - RESAMPLE_LATENCY) = some sampleS4
      ∧ (resampleMotionEvent freshState 48000000 evS4 none).2.samples
          = evS4.samples ++ [⟨sampleS4.eventTime, sampleS4.asPointerCoords⟩]
      ∧ sampleS4.eventTime = min (48000000 - RESAMPLE_LATENCY)
          (presentS4.eventTime
            + min ((presentS4.eventTime - pastS4.eventTime) / 2)
              RESAMPLE_MAX_PREDICTION) := by
  have h1 : (windowAfterIngest freshState evS4).getD
      ((windowAfterIngest freshState evS4).length - 2) default = pastS4 := by
    decide
  have h2 : (windowAfterIngest freshState evS4).getD
      ((windowAfterIngest freshState evS4).length - 1) default = presentS4 := by
    decide
  have h3 : attemptExtrapolation (windowAfterIngest freshState evS4)
      (48000000 - RESAMPLE_LATENCY) = some sampleS4 := by
    simp [attemptExtrapolation, canExtrapolate, windowAfterIngest,
      updateLatestSamples, sampleAt, pushBack, pointerPropertiesResampleable,
      canResampleTool, calculateResampledCoords, lerp, freshState, evS4,
      baseEvent, pastS4, presentS4, sampleS4, RESAMPLE_MIN_DELTA,
      RESAMPLE_MAX_DELTA, RESAMPLE_MAX_PREDICTION, RESAMPLE_LATENCY,
      MotionEvent.pointerCount, List.range_succ]
    norm_num
  have hmain := C4_extrapolation_horizon freshState 48000000 evS4 pastS4
    presentS4 sampleS4 h1 h2 h3
  exact ⟨h1, h2, h3, hmain.1, hmain.2.1⟩

/-- C5: the motion event is left unchanged whenever the governing delta is
below 2 ms (either path) or above 20 ms (extrapolation path), while a delta of
exactly 2 ms passes the interpolation gate (which has no upper bound) and a
delta between 2 ms and 20 ms inclusive passes the extrapolation gate. -/
theorem C5_delta_gating :
    (∀ (st : ResamplerState) (f : Nanos) (ev : MotionEvent)
        (msg : InputMessage) (past : Sample),
        (windowAfterIngest st ev).getLast? = some past →
        msg.eventTime - past.eventTime < RESAMPLE_MIN_DELTA →
        (resampleMotionEvent st f ev (some msg)).2 = ev)
      ∧ (∀ (st : ResamplerState) (f : Nanos) (ev : MotionEvent),
          ((windowAfterIngest st ev).getD
                ((windowAfterIngest st ev).length - 1) default).eventTime
              - ((windowAfterIngest st ev).getD
                ((windowAfterIngest st ev).length - 2) default).eventTime
                < RESAMPLE_MIN_DELTA
            ∨ RESAMPLE_MAX_DELTA
              < ((windowAfterIngest st ev).getD
                ((windowAfterIngest st ev).length - 1) default).eventTime
              - ((windowAfterIngest st ev).getD
                ((windowAfterIngest st ev).length - 2) default).eventTime →
          (resampleMotionEvent st f ev none).2 = ev)
      ∧ (∀ (w : List Sample) (msg : InputMessage) (past : Sample),
          w.getLast? = some past →
          pointerPropertiesResampleable past (messageToSample msg) = true →
          RESAMPLE_MIN_DELTA ≤ msg.eventTime - past.eventTime →
          canInterpolate w msg = true)
      ∧ (∀ w : List Sample, 2 ≤ w.length →
          pointerPropertiesResampleable (w.getD (w.length - 1) default)
            (w.getD (w.length - 2) default) = true →
          RESAMPLE_MIN_DELTA ≤ (w.getD (w.length - 1) default).eventTime
            - (w.getD (w.length - 2) default).eventTime →
          (w.getD (w.length - 1) default).eventTime
            - (w.getD (w.length - 2) default).eventTime ≤ RESAMPLE_MAX_DELTA →
          canExtrapolate w = true) := by
  refine ⟨?_, ?_, ?_, ?_⟩
  · intro st f ev msg past hpast hdelta
    exact resample_snd_interp_none st f ev msg
      (attemptInterpolation_eq_none _ _ _
        (canInterpolate_false_of_delta_lt _ _ _ hpast hdelta))
  · intro st f ev hdelta
    exact resample_snd_extrap_none st f ev
      (attemptExtrapolation_eq_none _ _
        (canExtrapolate_false_of_delta _ hdelta))
  · intro w msg past hpast hppr hdelta
    exact canInterpolate_true_intro w msg past hpast hppr hdelta
  · intro w hlen hppr hd1 hd2
    exact canExtrapolate_true_intro w hlen hppr hd1 hd2

/-- C5 witness: a 1.5 ms interpolation delta and a 25 ms extrapolation delta
are refused with the event unchanged, while deltas of exactly 2 ms
(interpolation) and exactly 20 ms (extrapolation) are accepted. -/
theorem C5_delta_gating_witness :
    (resampleMotionEvent freshState 16000000 evS1 (some msgSmallDelta)).2 = evS1
      ∧ (resampleMotionEvent freshState 16000000 evLargeDelta none).2
        = evLargeDelta
      ∧ msgExactMin.eventTime - pastS1.eventTime = RESAMPLE_MIN_DELTA
      ∧ canInterpolate [pastS1] msgExactMin = true
      ∧ presentS4.eventTime - pastS4.eventTime = RESAMPLE_MAX_DELTA
      ∧ canExtrapolate [pastS4, presentS4] = true := by
  refine ⟨C5_delta_gating.1 freshState 16000000 evS1 msgSmallDelta pastS1
      (by decide) (by decide),
    C5_delta_gating.2.1 freshState 16000000 evLargeDelta (by decide),
    by decide,
    C5_delta_gating.2.2.1 [pastS1] msgExactMin pastS1 (by decide) (by decide)
      (by decide),
    by decide,
    C5_delta_gating.2.2.2 [pastS4, presentS4] (by decide) (by decide)
      (by decide) (by decide)⟩

/-- C6: a sample is appended only if the auxiliary sample (the future sample
for interpolation, the older window sample for extrapolation) has at least as
many pointers as the target sample and, at every target index, ids and tool
types agree and the tool type is resampleable; concretely, reordered pointer
ids or a palm pointer cause refusal with the event unchanged. -/
theorem C6_pointer_set_gate :
    (∀ (st : ResamplerState) (f : Nanos) (ev : MotionEvent)
        (msg : InputMessage),
        (resampleMotionEvent st f ev (some msg)).2.samples ≠ ev.samples →
        ((windowAfterIngest st ev).getLast?.getD default).pointers.length
            ≤ msg.pointers.length
          ∧ ∀ i < ((windowAfterIngest st ev).getLast?.getD
              default).pointers.length,
              ((((windowAfterIngest st ev).getLast?.getD default).pointers.getD
                    i default).properties.id
                  = (msg.pointers.getD i default).properties.id)
                ∧ ((((windowAfterIngest st ev).getLast?.getD
                      default).pointers.getD i default).properties.toolType
                  = (msg.pointers.getD i default).properties.toolType)
                ∧ canResampleTool
                    ((((windowAfterIngest st ev).getLast?.getD
                      default).pointers.getD i default).properties.toolType)
                  = true)
      ∧ (∀ (st : ResamplerState) (f : Nanos) (ev : MotionEvent),
          (resampleMotionEvent st f ev none).2.samples ≠ ev.samples →
          ((windowAfterIngest st ev).getD
              ((windowAfterIngest st ev).length - 1) default).pointers.length
            ≤ ((windowAfterIngest st ev).getD
              ((windowAfterIngest st ev).length - 2) default).pointers.length
          ∧ ∀ i < ((windowAfterIngest st ev).getD
              ((windowAfterIngest st ev).length - 1) default).pointers.length,
              ((((windowAfterIngest st ev).getD
                    ((windowAfterIngest st ev).length - 1) default).pointers.getD
                    i default).properties.id
                  = (((windowAfterIngest st ev).getD
                    ((windowAfterIngest st ev).length - 2) default).pointers.getD
                    i default).properties.id)
                ∧ ((((windowAfterIngest st ev).getD
                      ((windowAfterIngest st ev).length - 1)
                      default).pointers.getD i default).properties.toolType
                  = (((windowAfterIngest st ev).getD
                      ((windowAfterIngest st ev).length - 2)
                      default).pointers.getD i default).properties.toolType)
                ∧ canResampleTool
                    ((((windowAfterIngest st ev).getD
                      ((windowAfterIngest st ev).length - 1)
                      default).pointers.getD i default).properties.toolType)
                  = true)
      ∧ (resampleMotionEvent freshState 16000000 evTwoPointers
          (some msgReorder)).2 = evTwoPointers
      ∧ (resampleMotionEvent freshState 16000000 evPalm (some msgPalm)).2
        = evPalm := by
  refine ⟨?_, ?_, by decide, by decide⟩
  · intro st f ev msg hne
    cases h : attemptInterpolation (windowAfterIngest st ev)
        (f - RESAMPLE_LATENCY) msg with
    | none =>
      exact absurd (congrArg MotionEvent.samples
        (resample_snd_interp_none st f ev msg h)) hne
    | some s =>
      have hc : canInterpolate (windowAfterIngest st ev) msg = true := by
        have hi := attemptInterpolation_isSome (windowAfterIngest st ev)
          (f - RESAMPLE_LATENCY) msg
        rw [h] at hi
        exact hi.symm
      obtain ⟨past, hpast⟩ := canInterpolate_true_getLast _ _ hc
      obtain ⟨hppr, -⟩ := canInterpolate_true_elim _ _ _ hpast hc
      have helim := pointerPropertiesResampleable_true_elim _ _ hppr
      simp only [messageToSample] at helim
      simp only [hpast, Option.getD_some]
      exact helim
  · intro st f ev hne
    cases h : attemptExtrapolation (windowAfterIngest st ev)
        (f - RESAMPLE_LATENCY) with
    | none =>
      exact absurd (congrArg MotionEvent.samples
        (resample_snd_extrap_none st f ev h)) hne
    | some s =>
      have hc : canExtrapolate (windowAfterIngest st ev) = true := by
        have hi := attemptExtrapolation_isSome (windowAfterIngest st ev)
          (f - RESAMPLE_LATENCY)
        rw [h] at hi
        exact hi.symm
      obtain ⟨-, hppr, -, -⟩ := canExtrapolate_true_elim _ hc
      exact pointerPropertiesResampleable_true_elim _ _ hppr

/-- C6 witness: on the successful S1 interpolation the gate conditions hold
between the window's latest sample and the future sample. -/
theorem C6_pointer_set_gate_witness :
    ((windowAfterIngest freshState evS1).getLast?.getD
        default).pointers.length ≤ msgS1.pointers.length
      ∧ ∀ i < ((windowAfterIngest freshState evS1).getLast?.getD
          default).pointers.length,
          ((((windowAfterIngest freshState evS1).getLast?.getD
                default).pointers.getD i default).properties.id
              = (msgS1.pointers.getD i default).properties.id)
            ∧ ((((windowAfterIngest freshState evS1).getLast?.getD
                  default).pointers.getD i default).properties.toolType
              = (msgS1.pointers.getD i default).properties.toolType)
            ∧ canResampleTool
                ((((windowAfterIngest freshState evS1).getLast?.getD
                  default).pointers.getD i default).properties.toolType)
              = true :=
  C6_pointer_set_gate.1 freshState 16000000 evS1 msgS1
    (fun heq => absurd (congrArg List.length heq) (by decide))

/-- C7: every resample call preserves the event's device id, action, action
button, button state, flags, edge flags, classification, pointer count,
meta state, source, x/y precision, down time, display id and id, and grows
the sample list by at most one entry. -/
theorem C7_metadata_invariance (st : ResamplerState) (f : Nanos)
    (ev : MotionEvent) (fut : Option InputMessage) :
    (resampleMotionEvent st f ev fut).2.deviceId = ev.deviceId
      ∧ (resampleMotionEvent st f ev fut).2.action = ev.action
      ∧ (resampleMotionEvent st f ev fut).2.actionButton = ev.actionButton
      ∧ (resampleMotionEvent st f ev fut).2.buttonState = ev.buttonState
      ∧ (resampleMotionEvent st f ev fut).2.flags = ev.flags
      ∧ (resampleMotionEvent st f ev fut).2.edgeFlags = ev.edgeFlags
      ∧ (resampleMotionEvent st f ev fut).2.classification = ev.classification
      ∧ (resampleMotionEvent st f ev fut).2.pointerCount = ev.pointerCount
      ∧ (resampleMotionEvent st f ev fut).2.metaState = ev.metaState
      ∧ (resampleMotionEvent st f ev fut).2.source = ev.source
      ∧ (resampleMotionEvent st f ev fut).2.xPrecision = ev.xPrecision
      ∧ (resampleMotionEvent st f ev fut).2.yPrecision = ev.yPrecision
      ∧ (resampleMotionEvent st f ev fut).2.downTime = ev.downTime
      ∧ (resampleMotionEvent st f ev fut).2.displayId = ev.displayId
      ∧ (resampleMotionEvent st f ev fut).2.id = ev.id
      ∧ ((resampleMotionEvent st f ev fut).2.samples = ev.samples
          ∨ ∃ a, (resampleMotionEvent st f ev fut).2.samples
            = ev.samples ++ [a]) := by
  rcases resample_snd_cases st f ev fut with h | ⟨s, h⟩ <;> rw [h]
  · exact ⟨rfl, rfl, rfl, rfl, rfl, rfl, rfl, rfl, rfl, rfl, rfl, rfl, rfl,
      rfl, rfl, Or.inl rfl⟩
  · exact ⟨rfl, rfl, rfl, rfl, rfl, rfl, rfl, rfl, rfl, rfl, rfl, rfl, rfl,
      rfl, rfl, Or.inr ⟨⟨s.eventTime, s.asPointerCoords⟩, rfl⟩⟩

/-- C8: if a resample call grows the sample list by one, the preexisting
samples are unchanged and every coordinate record of the appended sample has
`isResampled = true`. -/
theorem C8_resampled_flag (st : ResamplerState) (f : Nanos) (ev : MotionEvent)
    (fut : Option InputMessage)
    (hgrow : (resampleMotionEvent st f ev fut).2.samples.length
      = ev.samples.length + 1) :
    (resampleMotionEvent st f ev fut).2.samples.take ev.samples.length
        = ev.samples
      ∧ ∀ c ∈ ((resampleMotionEvent st f ev fut).2.samples.getD
          ev.samples.length default).pointerCoords, c.isResampled = true := by
  cases fut with
  | some msg =>
    cases h : attemptInterpolation (windowAfterIngest st ev)
        (f - RESAMPLE_LATENCY) msg with
    | none =>
      rw [resample_snd_interp_none st f ev msg h] at hgrow
      omega
    | some s =>
      rw [resample_snd_interp_some st f ev msg s h,
        addSampleToMotionEvent_samples, getD_concat_length]
      refine ⟨List.take_left ev.samples _, ?_⟩
      intro c hc
      simp only [Sample.asPointerCoords] at hc
      obtain ⟨p, hp, rfl⟩ := List.mem_map.mp hc
      exact attemptInterpolation_pointers_resampled _ _ _ _ h p hp
  | none =>
    cases h : attemptExtrapolation (windowAfterIngest st ev)
        (f - RESAMPLE_LATENCY) with
    | none =>
      rw [resample_snd_extrap_none st f ev h] at hgrow
      omega
    | some s =>
      rw [resample_snd_extrap_some st f ev s h,
        addSampleToMotionEvent_samples, getD_concat_length]
      refine ⟨List.take_left ev.samples _, ?_⟩
      intro c hc
      simp only [Sample.asPointerCoords] at hc
      obtain ⟨p, hp, rfl⟩ := List.mem_map.mp hc
      exact attemptExtrapolation_pointers_resampled _ _ _ h p hp

/-- C8 witness: the S1 interpolation call grows the sample list by one, keeps
the old sample, and the appended coordinates are flagged resampled. -/
theorem C8_resampled_flag_witness :
    (resampleMotionEvent freshState 16000000 evS1
        (some msgS1)).2.samples.length = evS1.samples.length + 1
      ∧ (resampleMotionEvent freshState 16000000 evS1
          (some msgS1)).2.samples.take evS1.samples.length = evS1.samples
      ∧ ∀ c ∈ ((resampleMotionEvent freshState 16000000 evS1
          (some msgS1)).2.samples.getD evS1.samples.length
          default).pointerCoords, c.isResampled = true := by
  have hgrow : (resampleMotionEvent freshState 16000000 evS1
      (some msgS1)).2.samples.length = evS1.samples.length + 1 := by decide
  have hmain := C8_resampled_flag freshState 16000000 evS1 (some msgS1) hgrow
  exact ⟨hgrow, hmain.1, hmain.2⟩

/-- C9: the resample latency is exactly 5 ms, and every appended sample's
event time is at most `frameTime - 5 ms` and never equals `frameTime`. -/
theorem C9_resample_latency (st : ResamplerState) (f : Nanos)
    (ev : MotionEvent) (fut : Option InputMessage)
    (hgrow : (resampleMotionEvent st f ev fut).2.samples.length
      = ev.samples.length + 1) :
    getResampleLatency = 5000000
      ∧ ((resampleMotionEvent st f ev fut).2.samples.getD ev.samples.length
          default).eventTime ≤ f - 5000000
      ∧ ((resampleMotionEvent st f ev fut).2.samples.getD ev.samples.length
          default).eventTime ≠ f := by
  have hRL : RESAMPLE_LATENCY = (5000000 : Int) := rfl
  suffices hBC : ((resampleMotionEvent st f ev fut).2.samples.getD
        ev.samples.length default).eventTime ≤ f - 5000000
      ∧ ((resampleMotionEvent st f ev fut).2.samples.getD ev.samples.length
        default).eventTime ≠ f by
    exact ⟨rfl, hBC.1, hBC.2⟩
  cases fut with
  | some msg =>
    cases h : attemptInterpolation (windowAfterIngest st ev)
        (f - RESAMPLE_LATENCY) msg with
    | none =>
      rw [resample_snd_interp_none st f ev msg h] at hgrow
      omega
    | some s =>
      have ht := attemptInterpolation_eventTime _ _ _ _ h
      rw [resample_snd_interp_some st f ev msg s h,
        addSampleToMotionEvent_samples, getD_concat_length]
      constructor
      · show s.eventTime ≤ f - 5000000
        exact le_of_eq ht
      · show s.eventTime ≠ f
        rw [ht]
        exact fun hcontra =>
          absurd (sub_eq_self.mp hcontra) (by decide)
  | none =>
    cases h : attemptExtrapolation (windowAfterIngest st ev)
        (f - RESAMPLE_LATENCY) with
    | none =>
      rw [resample_snd_extrap_none st f ev h] at hgrow
      omega
    | some s =>
      have ht := attemptExtrapolation_eventTime_le _ _ _ h
      rw [resample_snd_extrap_some st f ev s h,
        addSampleToMotionEvent_samples, getD_concat_length]
      constructor
      · show s.eventTime ≤ f - 5000000
        exact ht
      · show s.eventTime ≠ f
        exact ne_of_lt (lt_of_le_of_lt ht
          (sub_lt_self f (by decide : (0 : Int) < RESAMPLE_LATENCY)))

/-- C9 witness: the S1 interpolation call at frame time 16 ms appends a
sample no later than 11 ms and distinct from the frame time. -/
theorem C9_resample_latency_witness :
    (resampleMotionEvent freshState 16000000 evS1
        (some msgS1)).2.samples.length = evS1.samples.length + 1
      ∧ getResampleLatency = 5000000
      ∧ ((resampleMotionEvent freshState 16000000 evS1
          (some msgS1)).2.samples.getD evS1.samples.length default).eventTime
        ≤ 16000000 - 5000000
      ∧ ((resampleMotionEvent freshState 16000000 evS1
          (some msgS1)).2.samples.getD evS1.samples.length default).eventTime
        ≠ 16000000 := by
  have hgrow : (resampleMotionEvent freshState 16000000 evS1
      (some msgS1)).2.samples.length = evS1.samples.length + 1 := by decide
  have hmain := C9_resample_latency freshState 16000000 evS1 (some msgS1) hgrow
  exact ⟨hgrow, hmain.1, hmain.2.1, hmain.2.2⟩

/-- C10: the division computing alpha is reached only behind the
minimum-delta gate, so on both paths the divisor is at least 2 ms and in
particular strictly positive; a future sample not strictly later than the
window's latest sample is refused by that same gate. -/
theorem C10_division_safety :
    (∀ (w : List Sample) (msg : InputMessage) (past : Sample),
        w.getLast? = some past → canInterpolate w msg = true →
        RESAMPLE_MIN_DELTA ≤ msg.eventTime - past.eventTime
          ∧ 0 < msg.eventTime - past.eventTime)
      ∧ (∀ w : List Sample, canExtrapolate w = true →
          RESAMPLE_MIN_DELTA ≤ (w.getD (w.length - 1) default).eventTime
              - (w.getD (w.length - 2) default).eventTime
            ∧ 0 < (w.getD (w.length - 1) default).eventTime
              - (w.getD (w.length - 2) default).eventTime)
      ∧ (∀ (w : List Sample) (t : Nanos) (msg : InputMessage) (past : Sample),
          w.getLast? = some past → msg.eventTime ≤ past.eventTime →
          canInterpolate w msg = false
            ∧ attemptInterpolation w t msg = none) := by
  have hpos : (0 : Int) < RESAMPLE_MIN_DELTA := by decide
  refine ⟨?_, ?_, ?_⟩
  · intro w msg past hpast hc
    obtain ⟨-, hd⟩ := canInterpolate_true_elim _ _ _ hpast hc
    exact ⟨hd, lt_of_lt_of_le hpos hd⟩
  · intro w hc
    obtain ⟨-, -, hd, -⟩ := canExtrapolate_true_elim _ hc
    exact ⟨hd, lt_of_lt_of_le hpos hd⟩
  · intro w t msg past hpast hle
    have hd : msg.eventTime - past.eventTime < RESAMPLE_MIN_DELTA :=
      lt_of_le_of_lt (sub_nonpos.mpr hle) hpos
    have hfalse := canInterpolate_false_of_delta_lt _ _ _ hpast hd
    exact ⟨hfalse, attemptInterpolation_eq_none _ _ _ hfalse⟩

/-- C10 witness: the S1 interpolation divisor is 5 ms > 0, the S4
extrapolation divisor is 20 ms > 0, and a future sample at the past sample's
own time is refused. -/
theorem C10_division_safety_witness :
    (RESAMPLE_MIN_DELTA ≤ msgS1.eventTime - pastS1.eventTime
        ∧ 0 < msgS1.eventTime - pastS1.eventTime)
      ∧ (RESAMPLE_MIN_DELTA
            ≤ (([pastS4, presentS4] : List Sample).getD
                (([pastS4, presentS4] : List Sample).length - 1)
                default).eventTime
              - (([pastS4, presentS4] : List Sample).getD
                (([pastS4, presentS4] : List Sample).length - 2)
                default).eventTime
          ∧ 0 < (([pastS4, presentS4] : List Sample).getD
                (([pastS4, presentS4] : List Sample).length - 1)
                default).eventTime
              - (([pastS4, presentS4] : List Sample).getD
                (([pastS4, presentS4] : List Sample).length - 2)
                default).eventTime)
      ∧ (canInterpolate [pastS1] msgStale = false
          ∧ attemptInterpolation [pastS1] 11000000 msgStale = none) :=
  ⟨C10_division_safety.1 [pastS1] msgS1 pastS1 (by decide) (by decide),
    C10_division_safety.2.1 [pastS4, presentS4] (by decide),
    C10_division_safety.2.2 [pastS1] 11000000 msgStale pastS1 (by decide)
      (by decide)⟩

end AndroidInput
